import Mathlib

/-!
Verification of the spreadsheet ingestion / normalization / delta pipeline.

The JavaScript number domain is modelled by `JSNum`: a finite value is an
exact rational (float rounding is abstracted away; none of the verified
properties depend on it), plus the three non-finite values NaN, +Infinity
and -Infinity.  Cell values are `JSValue`: a string, a number, or the
undefined value produced by reading a missing cell or property.
-/

inductive JSNum where
| fin (q : ℚ)
| nan
| posInf
| negInf
deriving DecidableEq

inductive JSValue where
| str (s : String)
| num (n : JSNum)
| undef
deriving DecidableEq

namespace JSNum

/-- JavaScript unary minus on numbers. -/
def jneg : JSNum → JSNum
| fin q => fin (-q)
| nan => nan
| posInf => negInf
| negInf => posInf

/-- JavaScript `+` on two numbers (IEEE special-value rules, exact finite part). -/
def jadd : JSNum → JSNum → JSNum
| nan, _ => nan
| _, nan => nan
| posInf, negInf => nan
| negInf, posInf => nan
| posInf, _ => posInf
| _, posInf => posInf
| negInf, _ => negInf
| _, negInf => negInf
| fin a, fin b => fin (a + b)

/-- JavaScript `-` on two numbers. -/
def jsub (a b : JSNum) : JSNum := jadd a (jneg b)

/-- Multiplication by the literal 10000, as used by the myriad branch
of `parseNumber` (`num * 10000`). -/
def jmul10000 : JSNum → JSNum
| fin q => fin (q * 10000)
| nan => nan
| posInf => posInf
| negInf => negInf

/-- JavaScript truthiness of a number: 0 and NaN are falsy.
(The rational model does not distinguish -0, which is also falsy.) -/
def truthy : JSNum → Bool
| fin q => decide (q ≠ 0)
| nan => false
| posInf => true
| negInf => true

end JSNum

namespace JSValue

/-- JavaScript truthiness of a value. -/
def truthy : JSValue → Bool
| str s => !(s == "")
| num n => n.truthy
| undef => false

/-- JavaScript `a || b`. -/
def jsOr (a b : JSValue) : JSValue := if a.truthy then a else b

end JSValue

/-! ### String utilities mirroring the JavaScript string methods used -/

/-- The characters JavaScript `String.prototype.trim` removes
(WhiteSpace and LineTerminator code points; the common ones). -/
def isJsWs (c : Char) : Bool :=
  c == ' ' || c == '\t' || c == '\n' || c == '\r' || c == '\x0b' ||
  c == '\x0c' || c == Char.ofNat 0xa0 || c == Char.ofNat 0xfeff ||
  c == Char.ofNat 0x2028 || c == Char.ofNat 0x2029

/-- `s.trim()`. -/
def jsTrim (s : String) : String :=
  String.mk (((s.data.dropWhile isJsWs).reverse.dropWhile isJsWs).reverse)

/-- `s.replace(/c/g, '')`: remove every occurrence of one character. -/
def removeAll (c : Char) (s : String) : String :=
  String.mk (s.data.filter (fun d => d != c))

/-- `s.replace(c, '')` with a plain one-character string pattern:
remove only the first occurrence. -/
def removeFirstChar (c : Char) : List Char → List Char
| [] => []
| d :: rest => if d == c then rest else d :: removeFirstChar c rest

/-- `s.replace(c, '')` on strings. -/
def removeFirst (c : Char) (s : String) : String :=
  String.mk (removeFirstChar c s.data)

/-- `s.includes(c)` for a one-character search string. -/
def jsIncludes (c : Char) (s : String) : Bool := s.data.any (fun d => d == c)

/-- `s.toLowerCase()` (ASCII case mapping; only ASCII is relevant here). -/
def jsToLower (s : String) : String := String.mk (s.data.map Char.toLower)

/-- Whether `pat` is a leading segment of `l` (used for the `Infinity`
literal recognised by the JavaScript numeric grammars). -/
def litStarts : List Char → List Char → Bool
| [], _ => true
| _ :: _, [] => false
| p :: ps, c :: cs => p == c && litStarts ps cs

/-! ### The JavaScript `parseFloat` numeric grammar

`parseFloat` skips leading whitespace, accepts an optional sign, then the
longest prefix that is either the literal `Infinity` or a decimal
(digits, optional fraction, optional well-formed exponent), ignoring any
trailing garbage; with no valid prefix the result is NaN. -/

def digitVal (c : Char) : ℕ := c.toNat - '0'.toNat

def digitsToNat (l : List Char) : ℕ := l.foldl (fun a c => 10 * a + digitVal c) 0

/-- Parse a decimal mantissa (digits, optionally a point and more digits)
from the front of `l`; returns the value and the unconsumed rest, or
none when not even one digit is present. -/
def parseMantissa (l : List Char) : Option (ℚ × List Char) :=
  let ds := l.takeWhile Char.isDigit
  let r1 := l.dropWhile Char.isDigit
  match r1 with
  | '.' :: r2 =>
    let fs := r2.takeWhile Char.isDigit
    let r3 := r2.dropWhile Char.isDigit
    if ds.isEmpty && fs.isEmpty then none
    else some ((digitsToNat ds : ℚ) + (digitsToNat fs : ℚ) / (10 : ℚ) ^ fs.length, r3)
  | _ => if ds.isEmpty then none else some ((digitsToNat ds : ℚ), r1)

/-- Digits (with optional sign) of an exponent part; `orig` is returned
unconsumed when the part is malformed. -/
def parseExpDigits (orig rest : List Char) : ℤ × List Char :=
  match rest with
  | '+' :: r2 =>
    let ds := r2.takeWhile Char.isDigit
    if ds.isEmpty then (0, orig) else ((digitsToNat ds : ℤ), r2.dropWhile Char.isDigit)
  | '-' :: r2 =>
    let ds := r2.takeWhile Char.isDigit
    if ds.isEmpty then (0, orig) else (-(digitsToNat ds : ℤ), r2.dropWhile Char.isDigit)
  | r2 =>
    let ds := r2.takeWhile Char.isDigit
    if ds.isEmpty then (0, orig) else ((digitsToNat ds : ℤ), r2.dropWhile Char.isDigit)

/-- Parse an optional exponent part `e`/`E`, optional sign, digits.
Returns the exponent and the unconsumed rest; a malformed exponent part
is not consumed and contributes exponent 0. -/
def parseExpPart (l : List Char) : ℤ × List Char :=
  match l with
  | 'e' :: rest => parseExpDigits l rest
  | 'E' :: rest => parseExpDigits l rest
  | _ => (0, l)

/-- The unsigned part of `parseFloat` after sign handling. -/
def parseFloatBody (sign : ℚ) (l : List Char) : JSNum :=
  if litStarts "Infinity".data l then
    if sign > 0 then JSNum.posInf else JSNum.negInf
  else
    match parseMantissa l with
    | none => JSNum.nan
    | some (m, rest) => JSNum.fin (sign * m * (10 : ℚ) ^ (parseExpPart rest).1)

/-- JavaScript `parseFloat`. -/
def parseFloat (s : String) : JSNum :=
  match s.data.dropWhile isJsWs with
  | '+' :: r => parseFloatBody 1 r
  | '-' :: r => parseFloatBody (-1) r
  | l => parseFloatBody 1 l

/-! ### JavaScript `ToNumber` for strings, and `ToString`

`-` between values coerces both operands with `ToNumber`.  For strings
that is the whole-string numeric grammar: empty/whitespace-only is 0,
otherwise an optionally signed decimal or `Infinity` with nothing left
over (radix-prefixed literals such as `0x...` are not modelled; no claim
touches them).  `ToString` of a finite number is modelled exactly for
integers — the only numeric values whose string image the code ever
compares — and by a fixed marker otherwise (JavaScript's
shortest-roundtrip float formatting is outside the rational model). -/

def strToNumBody (sign : ℚ) (l : List Char) : JSNum :=
  if l == "Infinity".data then
    if sign > 0 then JSNum.posInf else JSNum.negInf
  else
    match parseMantissa l with
    | none => JSNum.nan
    | some (m, rest) =>
      match parseExpPart rest with
      | (e, []) => JSNum.fin (sign * m * (10 : ℚ) ^ e)
      | (_, _ :: _) => JSNum.nan

/-- JavaScript `ToNumber` applied to a string. -/
def strToNumber (s : String) : JSNum :=
  match ((s.data.dropWhile isJsWs).reverse.dropWhile isJsWs).reverse with
  | [] => JSNum.fin 0
  | '+' :: r => strToNumBody 1 r
  | '-' :: r => strToNumBody (-1) r
  | l => strToNumBody 1 l

/-- JavaScript `ToNumber` on a value (`-` operand coercion). -/
def toNumber : JSValue → JSNum
| JSValue.num n => n
| JSValue.undef => JSNum.nan
| JSValue.str s => strToNumber s

/-- `ToString` of an integer. -/
def intToString (i : ℤ) : String :=
  if i < 0 then "-" ++ Nat.repr i.natAbs else Nat.repr i.natAbs

/-- `ToString` of a number (exact for integers, see above). -/
def jsNumToString : JSNum → String
| JSNum.nan => "NaN"
| JSNum.posInf => "Infinity"
| JSNum.negInf => "-Infinity"
| JSNum.fin q => if q.den = 1 then intToString q.num else "#nonint:" ++ intToString q.num

/-- `value.toString()` / property-key coercion of a value. -/
def jsToString : JSValue → String
| JSValue.str s => s
| JSValue.num n => jsNumToString n
| JSValue.undef => "undefined"

/-- JavaScript `a - b` on two values. -/
def jsSubV (a b : JSValue) : JSNum := JSNum.jsub (toNumber a) (toNumber b)

/-! ### The three `parseNumber` implementations

Each is a direct transcription of one source function.  All three first
return a number argument unchanged, return 0 for any non-string
non-number, then work on `value.trim()` with every `'+'` removed. -/

/-- `parseNumber` from `src/app/api/data/route.ts` (per-month data route):
lowercase-only `includes('w')`, `replace('w','')` removes one character,
then a leftover-`'+'` removal that is vacuous after the global strip. -/
def parseNumber (value : JSValue) : JSNum :=
  match value with
  | JSValue.num n => n
  | JSValue.undef => JSNum.fin 0
  | JSValue.str s =>
    let cleaned := removeAll '+' (jsTrim s)
    if jsIncludes 'w' cleaned then
      let numPart := removeFirst '+' (removeFirst 'w' cleaned)
      match parseFloat numPart with
      | JSNum.nan => JSNum.fin 0
      | n => n.jmul10000
    else
      match parseFloat cleaned with
      | JSNum.nan => JSNum.fin 0
      | n => n

/-- `parseNumber` from the excel-reader library (`src/unnamed/part_000`);
its body is character-for-character the one in the data route. -/
def parseNumberExcel (value : JSValue) : JSNum :=
  match value with
  | JSValue.num n => n
  | JSValue.undef => JSNum.fin 0
  | JSValue.str s =>
    let cleaned := removeAll '+' (jsTrim s)
    if jsIncludes 'w' cleaned then
      let numPart := removeFirst '+' (removeFirst 'w' cleaned)
      match parseFloat numPart with
      | JSNum.nan => JSNum.fin 0
      | n => n.jmul10000
    else
      match parseFloat cleaned with
      | JSNum.nan => JSNum.fin 0
      | n => n

/-- `parseNumber` from the yearly-stats route (`src/unnamed/part_001`):
the myriad test is `cleaned.toLowerCase().includes('w')` and the strip is
`replace(/[wW]/g, '')`, removing every marker letter in either case. -/
def parseNumberYearly (value : JSValue) : JSNum :=
  match value with
  | JSValue.num n => n
  | JSValue.undef => JSNum.fin 0
  | JSValue.str s =>
    let cleaned := removeAll '+' (jsTrim s)
    if jsIncludes 'w' (jsToLower cleaned) then
      let numPart := removeFirst '+' (removeAll 'W' (removeAll 'w' cleaned))
      match parseFloat numPart with
      | JSNum.nan => JSNum.fin 0
      | n => n.jmul10000
    else
      match parseFloat cleaned with
      | JSNum.nan => JSNum.fin 0
      | n => n

/-! ### RecordBuilder (`route.ts` GET / `readExcelFile` in the excel reader)

An `AccountRecord` is the sequence of property assignments performed by
`headers.forEach((header, index) => { account[header] = ... })`, in
order; reading a field takes the value of the last assignment to that
key, which is JavaScript object-assignment semantics. -/

def AccountRecord := List (String × JSValue)

/-- Property read: value of the last assignment to `k`; `undef` when the
key was never assigned. -/
def getField (r : AccountRecord) (k : String) : JSValue :=
  (r.foldl (fun acc p => if p.1 == k then some p.2 else acc) none).getD JSValue.undef

/-- `row[index]`: a missing cell reads as undefined. -/
def cellAt (row : List JSValue) (i : ℕ) : JSValue := row.getD i JSValue.undef

/-- The value assigned for one header cell `h` at position `i`:
identity columns get `value?.toString() || ''`, every other column gets
`parseNumber(value)`. -/
def cellValue (h : JSValue) (row : List JSValue) (i : ℕ) : JSValue :=
  let value := cellAt row i
  if h == JSValue.str "公众号" || h == JSValue.str "帐号名" then
    JSValue.jsOr (match value with
      | JSValue.undef => JSValue.undef
      | w => JSValue.str (jsToString w)) (JSValue.str "")
  else
    JSValue.num (parseNumber value)

/-- The assignment list produced by the `forEach` starting at index `i`. -/
def buildFields (headers : List JSValue) (row : List JSValue) (i : ℕ) :
    List (String × JSValue) :=
  match headers with
  | [] => []
  | h :: t => (jsToString h, cellValue h row i) :: buildFields t row (i + 1)

/-- One row mapped to a record (`headers.forEach` with index from 0). -/
def buildAccount (headers : List JSValue) (row : List JSValue) : AccountRecord :=
  buildFields headers row 0

/-- The row-inclusion test of the builder:
`.filter(row => row && (row[0] || row[1]))` (rows are always arrays,
hence truthy; the test is on the first two cells). -/
def rowKept (row : List JSValue) : Bool :=
  (cellAt row 0).truthy || (cellAt row 1).truthy

/-- `dataRows.filter(...).map(...)`: the Snapshot built from the data rows. -/
def buildAccounts (headers : List JSValue) (dataRows : List (List JSValue)) :
    List AccountRecord :=
  (dataRows.filter rowKept).map (buildAccount headers)

/-! ### SafeFieldAccessor, EntityKeyResolver, DeltaComputer
(from the excel-reader library, `src/unnamed/part_000`) -/

/-- The tagged result of `safeGetValue`. -/
inductive SafeResult where
| ok (v : JSValue)
| err (msg : String)
deriving DecidableEq

/-- Whether `safeGetValue` classifies a produced value as a failure:
`typeof value === 'number' && (isNaN(value) || !isFinite(value))`. -/
def jsBadNumber : JSValue → Bool
| JSValue.num JSNum.nan => true
| JSValue.num JSNum.posInf => true
| JSValue.num JSNum.negInf => true
| _ => false

/-- `safeGetValue(getter, fieldName)`: the wrapped computation is a value
or a raised failure (`Except.error`); a raised failure or a NaN /
non-finite number becomes the tagged error carrying the field label. -/
def safeGetValue (getter : Except Unit JSValue) (fieldName : String) : SafeResult :=
  match getter with
  | Except.error _ => SafeResult.err (fieldName ++ "数据错误")
  | Except.ok v =>
    if jsBadNumber v then SafeResult.err (fieldName ++ "数据错误")
    else SafeResult.ok v

/-- `getAccountKey(account)`: `account.帐号名 || account.公众号 || ''`. -/
def getAccountKey (account : AccountRecord) : JSValue :=
  JSValue.jsOr (JSValue.jsOr (getField account "帐号名") (getField account "公众号"))
    (JSValue.str "")

/-- The forward-total read inside `getDisplayMetrics`:
`account.转发总量 || 0`. -/
def forwardRead (account : AccountRecord) : JSValue :=
  JSValue.jsOr (getField account "转发总量") (JSValue.num (JSNum.fin 0))

/-- The forward-total increment of `getDisplayMetrics`: `null` (here
`none`) when no previous-month record is supplied, otherwise
`(account.转发总量 || 0) - (previousAccount.转发总量 || 0)`.  The
`try`/`catch` around the subtraction guards plain property reads, which
cannot raise; nothing in the computation can reach the `catch` arm. -/
def forwardIncrement (account : AccountRecord) (previousAccount : Option AccountRecord) :
    Option JSNum :=
  match previousAccount with
  | none => none
  | some prev => some (jsSubV (forwardRead account) (forwardRead prev))

/-- The `总转发数` entry of the display bundle: `value` goes through
`safeGetValue(() => account.转发总量 ?? 0, '总转发数')`, `increment` is
the locally computed `forwardIncrement` verbatim. -/
def forwardBundle (account : AccountRecord) (previousAccount : Option AccountRecord) :
    SafeResult × Option JSNum :=
  (safeGetValue (Except.ok (match getField account "转发总量" with
      | JSValue.undef => JSValue.num (JSNum.fin 0)
      | v => v)) "总转发数",
   forwardIncrement account previousAccount)

/-! ### YearlyAggregator (`src/unnamed/part_001` GET)

One month's input is what the route's per-month body sees: either no
spreadsheet file in the month directory, a read/parse failure (the
`catch` arm), or a decoded workbook — a list of sheets, each a list of
rows of cell values. -/

inductive MonthSource where
| noFile
| readFailure
| workbook (sheets : List (List (List JSValue)))

def TARGET_ACCOUNTS : List String := ["新智元", "机器之心", "量子位"]

structure MonthlyData where
  month : String
  readTotal : JSNum
  headlineRead : JSNum
  forwardTotal : JSNum
deriving DecidableEq

structure AccountYearlyStats where
  accountName : String
  monthlyData : List MonthlyData
  totalRead : JSNum
  totalHeadline : JSNum
  totalForward : JSNum
deriving DecidableEq

/-- The stats map keyed by account name (`Map<string, AccountYearlyStats>`). -/
def StatsMap := String → Option AccountYearlyStats

/-- The initial map: one zeroed accumulator per target account. -/
def initialStatsMap : StatsMap := fun k =>
  if TARGET_ACCOUNTS.contains k then
    some ⟨k, [], JSNum.fin 0, JSNum.fin 0, JSNum.fin 0⟩
  else none

/-- `headers.findIndex(p)` with the JavaScript -1 convention, scanning
from position `i`. -/
def jsFindIdxFrom (p : JSValue → Bool) (l : List JSValue) (i : ℕ) : ℤ :=
  match l with
  | [] => -1
  | h :: t => if p h then (i : ℤ) else jsFindIdxFrom p t (i + 1)

/-- `headers.findIndex(p)` with the JavaScript -1 convention. -/
def jsFindIdx (p : JSValue → Bool) (l : List JSValue) : ℤ :=
  jsFindIdxFrom p l 0

/-- `row[i]` with a possibly negative (missing-column) index. -/
def cellAtZ (row : List JSValue) (i : ℤ) : JSValue :=
  if i < 0 then JSValue.undef else cellAt row i.toNat

/-- `idx >= 0 ? parseNumber(row[idx]) : 0`. -/
def metricAt (row : List JSValue) (i : ℤ) : JSNum :=
  if 0 ≤ i then parseNumberYearly (cellAtZ row i) else JSNum.fin 0

/-- `stats.monthlyData.push(monthData)` followed by the three `+=`. -/
def pushMonth (md : MonthlyData) (s : AccountYearlyStats) : AccountYearlyStats :=
  ⟨s.accountName, s.monthlyData ++ [md], s.totalRead.jadd md.readTotal,
   s.totalHeadline.jadd md.headlineRead, s.totalForward.jadd md.forwardTotal⟩

/-- `const stats = statsMap.get(name); if (stats) { ... }` as a map update. -/
def updateStats (m : StatsMap) (name : String) (md : MonthlyData) : StatsMap :=
  fun k => if k == name then (m k).map (pushMonth md) else m k

/-- Whether one data row matches an account name: the name cell is truthy
and its trimmed string image equals the name. -/
def rowMatches (aIdx : ℤ) (name : String) (row : List JSValue) : Bool :=
  (cellAtZ row aIdx).truthy && (jsTrim (jsToString (cellAtZ row aIdx)) == name)

/-- The per-row body of the aggregation loop. -/
def processRow (month : String) (aIdx rIdx hIdx fIdx : ℤ) (acc : StatsMap)
    (row : List JSValue) : StatsMap :=
  if (cellAtZ row aIdx).truthy then
    if TARGET_ACCOUNTS.contains (jsTrim (jsToString (cellAtZ row aIdx))) then
      updateStats acc (jsTrim (jsToString (cellAtZ row aIdx)))
        ⟨month, metricAt row rIdx, metricAt row hIdx, metricAt row fIdx⟩
    else acc
  else acc

/-- Processing one decoded sheet: header row, column lookup, row loop. -/
def processSheet (acc : StatsMap) (month : String) (sheet : List (List JSValue)) :
    StatsMap :=
  let headers := sheet.headD []
  let dataRows := sheet.drop 1
  let aIdx := jsFindIdx (fun h => h == JSValue.str "公众号" || h == JSValue.str "帐号名") headers
  let rIdx := jsFindIdx (fun h => h == JSValue.str "阅读总数") headers
  let hIdx := jsFindIdx (fun h => h == JSValue.str "头条文章阅读量") headers
  let fIdx := jsFindIdx (fun h => h == JSValue.str "转发总量") headers
  dataRows.foldl (processRow month aIdx rIdx hIdx fIdx) acc

/-- One iteration of the month loop: a missing file, a read failure, a
workbook without sheets, or one with fewer than two rows all `continue`
with the accumulator untouched. -/
def processMonth (acc : StatsMap) (p : String × MonthSource) : StatsMap :=
  match p.2 with
  | MonthSource.noFile => acc
  | MonthSource.readFailure => acc
  | MonthSource.workbook sheets =>
    match sheets with
    | [] => acc
    | sheet :: _ => if sheet.length < 2 then acc else processSheet acc p.1 sheet

/-- The whole aggregation over the ordered month list. -/
def aggregate (inputs : List (String × MonthSource)) : StatsMap :=
  inputs.foldl processMonth initialStatsMap

/-- Whether a month's input would be skipped wholesale by the loop. -/
def monthSkipped : MonthSource → Bool
| MonthSource.noFile => true
| MonthSource.readFailure => true
| MonthSource.workbook [] => true
| MonthSource.workbook (sheet :: _) => sheet.length < 2

/-- Whether a month's input contains a data row matching `name`
(the account-name column resolved exactly as the loop does). -/
def monthHasMatch (name : String) (src : MonthSource) : Bool :=
  match src with
  | MonthSource.noFile => false
  | MonthSource.readFailure => false
  | MonthSource.workbook sheets =>
    match sheets with
    | [] => false
    | sheet :: _ =>
      if sheet.length < 2 then false
      else
        let headers := sheet.headD []
        let aIdx := jsFindIdx
          (fun h => h == JSValue.str "公众号" || h == JSValue.str "帐号名") headers
        (sheet.drop 1).any (rowMatches aIdx name)

/-- Left-fold sum with JavaScript addition starting from 0, the shape of
the route's `total += entry` accumulation. -/
def jsum (l : List JSNum) : JSNum := l.foldl JSNum.jadd (JSNum.fin 0)

instance : DecidableEq AccountRecord :=
  inferInstanceAs (DecidableEq (List (String × JSValue)))

/-- The per-entity accumulator invariant of the yearly aggregation: each
running total is the left-fold sum of the corresponding metric over the
series, in push order. -/
def statsSums (s : AccountYearlyStats) : Prop :=
  jsum (s.monthlyData.map MonthlyData.readTotal) = s.totalRead ∧
  jsum (s.monthlyData.map MonthlyData.headlineRead) = s.totalHeadline ∧
  jsum (s.monthlyData.map MonthlyData.forwardTotal) = s.totalForward

/-- Generalized aggregation invariant: every populated entry of the map
satisfies the sum invariant, and every series element satisfies `Q`. -/
def InvGen (Q : String → MonthlyData → Prop) (acc : StatsMap) : Prop :=
  ∀ k s, acc k = some s → statsSums s ∧ ∀ md ∈ s.monthlyData, Q k md

/-! ## Theorems -/

/-! ### Helper lemmas -/

theorem jsIncludes_toLower_w (t : String)
    (h : jsIncludes 'w' t = true ∨ jsIncludes 'W' t = true) :
    jsIncludes 'w' (jsToLower t) = true := by
  unfold jsIncludes jsToLower at *
  rcases h with h | h <;>
  · rw [List.any_eq_true] at h ⊢
    obtain ⟨c, hc, hcw⟩ := h
    refine ⟨Char.toLower c, List.mem_map_of_mem Char.toLower hc, ?_⟩
    rw [beq_iff_eq] at hcw ⊢
    rw [hcw]
    decide

theorem cons_ne_self {α : Type} (x : α) (l : List α) : x :: l ≠ l := by
  intro h
  have := congrArg List.length h
  simp at this

/-- C1 (amended): `parseNumber` never throws (it is a total function of its
argument), returns a numeric argument unchanged — including NaN and
Infinity passthrough — and for a string argument never produces NaN; it
is however not always finite on strings (see the counterexample). -/
theorem parseNumber_passthrough_and_string_never_nan (v : JSValue) :
    (∀ n, v = JSValue.num n → parseNumber v = n) ∧
    (∀ s, v = JSValue.str s → parseNumber v ≠ JSNum.nan) := by
  constructor
  · intro n h; subst h; rfl
  · intro s h hnan; subst h
    unfold parseNumber at hnan
    dsimp only at hnan
    by_cases hw : jsIncludes 'w' (removeAll '+' (jsTrim s)) = true
    · rw [if_pos hw] at hnan
      revert hnan
      cases parseFloat (removeFirst '+' (removeFirst 'w' (removeAll '+' (jsTrim s)))) <;>
        simp [JSNum.jmul10000]
    · rw [if_neg hw] at hnan
      revert hnan
      cases parseFloat (removeAll '+' (jsTrim s)) <;> simp

/-- C1 witness: the theorem applied at the number NaN and at the string
`"abc"`. -/
theorem parseNumber_passthrough_witness :
    parseNumber (JSValue.num JSNum.nan) = JSNum.nan ∧
    parseNumber (JSValue.str "abc") ≠ JSNum.nan :=
  ⟨(parseNumber_passthrough_and_string_never_nan (JSValue.num JSNum.nan)).1 JSNum.nan rfl,
   (parseNumber_passthrough_and_string_never_nan (JSValue.str "abc")).2 "abc" rfl⟩

/-- C1 counterexample: the string `"Infinity"` is parsed by the
`parseFloat` grammar to +Infinity, passes the `isNaN` guard, and is
returned non-finite — refuting "always returns a finite number for
string input". -/
theorem parseNumber_string_infinity_cex :
    parseNumber (JSValue.str "Infinity") = JSNum.posInf := by decide

/-- C4: `safeGetValue` always returns a tagged result and never lets a
failure escape: a raised failure, or a produced number that is NaN or
non-finite, becomes the tagged error carrying the field label; any other
produced value is returned as the success case. -/
theorem safeGetValue_contract (getter : Except Unit JSValue) (fieldName : String) :
    (∀ e, getter = Except.error e →
      safeGetValue getter fieldName = SafeResult.err (fieldName ++ "数据错误")) ∧
    (∀ v, getter = Except.ok v → jsBadNumber v = true →
      safeGetValue getter fieldName = SafeResult.err (fieldName ++ "数据错误")) ∧
    (∀ v, getter = Except.ok v → jsBadNumber v = false →
      safeGetValue getter fieldName = SafeResult.ok v) := by
  refine ⟨?_, ?_, ?_⟩
  · intro e h; subst h; rfl
  · intro v h hb; subst h; simp [safeGetValue, hb]
  · intro v h hb; subst h; simp [safeGetValue, hb]

/-- C4 witness: the theorem applied to a raised failure, to a produced
NaN, and to an ordinary produced value. -/
theorem safeGetValue_contract_witness :
    safeGetValue (Except.error ()) "发文数" = SafeResult.err "发文数数据错误" ∧
    safeGetValue (Except.ok (JSValue.num JSNum.nan)) "总阅读数"
      = SafeResult.err "总阅读数数据错误" ∧
    safeGetValue (Except.ok (JSValue.num (JSNum.fin 7))) "总阅读数"
      = SafeResult.ok (JSValue.num (JSNum.fin 7)) :=
  ⟨(safeGetValue_contract (Except.error ()) "发文数").1 () rfl,
   (safeGetValue_contract (Except.ok (JSValue.num JSNum.nan)) "总阅读数").2.1
     (JSValue.num JSNum.nan) rfl rfl,
   (safeGetValue_contract (Except.ok (JSValue.num (JSNum.fin 7))) "总阅读数").2.2
     (JSValue.num (JSNum.fin 7)) rfl rfl⟩

/-- C6 (amended): in the yearly-stats implementation the myriad marker is
recognised in either letter case — whenever the cleaned text contains
`'w'` or `'W'`, the result is the float parse of the text with every
marker letter (and a leftover `'+'`) removed, scaled by 10000, with 0
for an unparseable remainder.  In the per-month route (and the identical
excel-reader copy) only a lowercase `'w'` triggers that branch: a
cleaned text without lowercase `'w'` is parsed as a plain float even if
it contains `'W'`. -/
theorem parseNumber_myriad_branch (s : String) :
    ((jsIncludes 'w' (removeAll '+' (jsTrim s)) = true ∨
      jsIncludes 'W' (removeAll '+' (jsTrim s)) = true) →
      parseNumberYearly (JSValue.str s) =
        (match parseFloat (removeFirst '+'
            (removeAll 'W' (removeAll 'w' (removeAll '+' (jsTrim s))))) with
         | JSNum.nan => JSNum.fin 0
         | n => n.jmul10000)) ∧
    (jsIncludes 'w' (removeAll '+' (jsTrim s)) = false →
      parseNumber (JSValue.str s) =
        (match parseFloat (removeAll '+' (jsTrim s)) with
         | JSNum.nan => JSNum.fin 0
         | n => n)) := by
  constructor
  · intro h
    have hl := jsIncludes_toLower_w (removeAll '+' (jsTrim s)) h
    unfold parseNumberYearly
    dsimp only
    rw [if_pos hl]
  · intro h
    unfold parseNumber
    dsimp only
    rw [if_neg (by simp [h])]

/-- C6 witness: the theorem applied at `"5W"` (uppercase marker, yearly
implementation takes the myriad branch) and at `"12"` (no marker, plain
parse in the route implementation). -/
theorem parseNumber_myriad_branch_witness :
    parseNumberYearly (JSValue.str "5W") = JSNum.fin 50000 ∧
    parseNumber (JSValue.str "12") = JSNum.fin 12 := by
  constructor
  · have h := (parseNumber_myriad_branch "5W").1 (Or.inr (by decide))
    rw [h]
    simp [parseNumber, parseNumberExcel, parseNumberYearly, parseFloat, parseFloatBody,
    parseMantissa, parseExpPart, parseExpDigits, digitsToNat, digitVal, litStarts,
    isJsWs, jsTrim, removeAll, removeFirst, removeFirstChar, jsIncludes, jsToLower,
    JSNum.jmul10000]
    norm_num
  · have h := (parseNumber_myriad_branch "12").2 (by decide)
    rw [h]
    simp [parseNumber, parseNumberExcel, parseNumberYearly, parseFloat, parseFloatBody,
    parseMantissa, parseExpPart, parseExpDigits, digitsToNat, digitVal, litStarts,
    isJsWs, jsTrim, removeAll, removeFirst, removeFirstChar, jsIncludes, jsToLower,
    JSNum.jmul10000]

/-- C6 counterexample: `"5W"` cleans to a text containing the myriad
marker in uppercase, yet the per-month route's `parseNumber` (its
`includes('w')` test is case-sensitive) returns 5 instead of the 50000
the claim requires. -/
theorem parseNumber_myriad_uppercase_cex :
    jsIncludes 'W' (removeAll '+' (jsTrim "5W")) = true ∧
    parseNumber (JSValue.str "5W") = JSNum.fin 5 ∧
    parseNumber (JSValue.str "5W") ≠ JSNum.fin 50000 := by
  refine ⟨by decide, ?_, ?_⟩ <;> simp [parseNumber, parseNumberExcel, parseNumberYearly, parseFloat, parseFloatBody,
    parseMantissa, parseExpPart, parseExpDigits, digitsToNat, digitVal, litStarts,
    isJsWs, jsTrim, removeAll, removeFirst, removeFirstChar, jsIncludes, jsToLower,
    JSNum.jmul10000]

/-- C7 (amended): the per-month route's `parseNumber` and the
excel-reader library's `parseNumber` are extensionally equal, but the
yearly-stats route's version is not extensionally equal to them: on
`"1W"` it recognises the uppercase marker and scales by 10000 while the
other two parse a plain 1. -/
theorem parseNumber_implementations_equivalence :
    (∀ v, parseNumber v = parseNumberExcel v) ∧
    parseNumberYearly (JSValue.str "1W") ≠ parseNumber (JSValue.str "1W") := by
  constructor
  · intro v; cases v <;> rfl
  · simp [parseNumber, parseNumberExcel, parseNumberYearly, parseFloat, parseFloatBody,
    parseMantissa, parseExpPart, parseExpDigits, digitsToNat, digitVal, litStarts,
    isJsWs, jsTrim, removeAll, removeFirst, removeFirstChar, jsIncludes, jsToLower,
    JSNum.jmul10000]

/-- C7 counterexample: the concrete input `"1W"` on which the three
implementations disagree (10000 versus 1 versus 1). -/
theorem parseNumber_implementations_disagree_cex :
    parseNumberYearly (JSValue.str "1W") = JSNum.fin 10000 ∧
    parseNumber (JSValue.str "1W") = JSNum.fin 1 ∧
    parseNumberExcel (JSValue.str "1W") = JSNum.fin 1 := by
  refine ⟨?_, ?_, ?_⟩ <;> simp [parseNumber, parseNumberExcel, parseNumberYearly, parseFloat, parseFloatBody,
    parseMantissa, parseExpPart, parseExpDigits, digitsToNat, digitVal, litStarts,
    isJsWs, jsTrim, removeAll, removeFirst, removeFirstChar, jsIncludes, jsToLower,
    JSNum.jmul10000]

/-- C10: `getAccountKey` is a pure function of the record; when the two
identity fields hold strings it returns the alternate name (`帐号名`)
if non-empty, else the primary name (`公众号`) if non-empty, else the
empty string — never null or undefined. -/
theorem getAccountKey_resolution (a : AccountRecord) (alt prim : String)
    (h1 : getField a "帐号名" = JSValue.str alt)
    (h2 : getField a "公众号" = JSValue.str prim) :
    getAccountKey a =
      JSValue.str (if alt ≠ "" then alt else if prim ≠ "" then prim else "") := by
  unfold getAccountKey
  rw [h1, h2]
  by_cases ha : alt = "" <;> by_cases hp : prim = "" <;>
    simp [JSValue.jsOr, JSValue.truthy, ha, hp]

/-- C10 witness: the theorem applied to records exercising all three
branches of the resolution rule. -/
theorem getAccountKey_resolution_witness :
    getAccountKey [("公众号", JSValue.str "主号"), ("帐号名", JSValue.str "备号")]
      = JSValue.str "备号" ∧
    getAccountKey [("公众号", JSValue.str "主号"), ("帐号名", JSValue.str "")]
      = JSValue.str "主号" ∧
    getAccountKey [("公众号", JSValue.str ""), ("帐号名", JSValue.str "")]
      = JSValue.str "" := by
  refine ⟨?_, ?_, ?_⟩
  · have h := getAccountKey_resolution
      [("公众号", JSValue.str "主号"), ("帐号名", JSValue.str "备号")] "备号" "主号" rfl rfl
    rw [h]; decide
  · have h := getAccountKey_resolution
      [("公众号", JSValue.str "主号"), ("帐号名", JSValue.str "")] "" "主号" rfl rfl
    rw [h]; decide
  · have h := getAccountKey_resolution
      [("公众号", JSValue.str ""), ("帐号名", JSValue.str "")] "" "" rfl rfl
    rw [h]; decide

/-- C2 (amended): the forward-total increment has exactly two states, not
three: it is the absent state (`none`) precisely when no previous-period
record is supplied, and otherwise a numeric difference of the two
forward totals as read through `|| 0` — which coerces a stored NaN (a
read that fails per the SafeFieldAccessor contract) to 0 instead of
producing the error state.  The difference may be negative. -/
theorem forwardIncrement_two_states (account prev : AccountRecord)
    (p? : Option AccountRecord) :
    (forwardIncrement account p? = none ↔ p? = none) ∧
    (∀ ca pa : ℚ, getField account "转发总量" = JSValue.num (JSNum.fin ca) →
      getField prev "转发总量" = JSValue.num (JSNum.fin pa) →
      forwardIncrement account (some prev) = some (JSNum.fin (ca - pa))) ∧
    (∀ ca : ℚ, getField prev "转发总量" = JSValue.num JSNum.nan →
      getField account "转发总量" = JSValue.num (JSNum.fin ca) →
      forwardIncrement account (some prev) = some (JSNum.fin ca)) := by
  refine ⟨?_, ?_, ?_⟩
  · cases p? <;> simp [forwardIncrement]
  · intro ca pa hca hpa
    unfold forwardIncrement jsSubV forwardRead
    by_cases h1 : ca = 0 <;> by_cases h2 : pa = 0 <;>
      simp [hca, hpa, JSValue.jsOr, JSValue.truthy, JSNum.truthy, h1, h2, toNumber,
        JSNum.jsub, JSNum.jadd, JSNum.jneg, sub_eq_add_neg]
  · intro ca hpa hca
    unfold forwardIncrement jsSubV forwardRead
    by_cases h1 : ca = 0 <;>
      simp [hca, hpa, JSValue.jsOr, JSValue.truthy, JSNum.truthy, h1, toNumber,
        JSNum.jsub, JSNum.jadd, JSNum.jneg]

/-- C2 witness: the theorem applied to concrete records — a negative
delta (100 − 130 = −30) and the absent state for a missing previous
record. -/
theorem forwardIncrement_two_states_witness :
    forwardIncrement [("转发总量", JSValue.num (JSNum.fin 100))]
      (some [("转发总量", JSValue.num (JSNum.fin 130))]) = some (JSNum.fin (-30)) ∧
    forwardIncrement [("转发总量", JSValue.num (JSNum.fin 100))] none = none := by
  constructor
  · have h := (forwardIncrement_two_states [("转发总量", JSValue.num (JSNum.fin 100))]
      [("转发总量", JSValue.num (JSNum.fin 130))] none).2.1 100 130 rfl rfl
    rw [h]
    simp only [Option.some.injEq, JSNum.fin.injEq]
    norm_num
  · exact (forwardIncrement_two_states [("转发总量", JSValue.num (JSNum.fin 100))]
      [("转发总量", JSValue.num (JSNum.fin 130))] none).1.mpr rfl

/-- C2 counterexample: a previous record whose forward total is NaN — a
read that fails per the SafeFieldAccessor contract, as the first
conjunct shows — yet the increment is the numeric 100 − 0 = 100, not
the error state the claim requires. -/
theorem forwardIncrement_nan_not_error_cex :
    safeGetValue (Except.ok (getField [("转发总量", JSValue.num JSNum.nan)] "转发总量"))
      "总转发数" = SafeResult.err "总转发数数据错误" ∧
    forwardIncrement [("转发总量", JSValue.num (JSNum.fin 100))]
      (some [("转发总量", JSValue.num JSNum.nan)]) = some (JSNum.fin 100) := by
  constructor
  · rfl
  · unfold forwardIncrement jsSubV forwardRead
    norm_num [getField, JSValue.jsOr, JSValue.truthy, JSNum.truthy, toNumber,
      JSNum.jsub, JSNum.jadd, JSNum.jneg]

/-- C3 (amended): a data row is excluded from the Snapshot if and only if
the cells at positions 0 and 1 are both JavaScript-falsy — the filter
tests `row[0] || row[1]`, not the cells under the identity headers, and
it is independent of every other cell, so corruption in numeric cells
never excludes a row.  When the first two cells hold strings this is
"both empty", matching the claim only for sheets whose identity columns
are the first two. -/
theorem snapshot_row_inclusion (headers : List JSValue) (rows : List (List JSValue))
    (row : List JSValue) :
    (buildAccounts headers (row :: rows) = buildAccounts headers rows ↔
      ((cellAt row 0).truthy = false ∧ (cellAt row 1).truthy = false)) ∧
    (∀ s0 s1 : String, cellAt row 0 = JSValue.str s0 → cellAt row 1 = JSValue.str s1 →
      (buildAccounts headers (row :: rows) =
          buildAccount headers row :: buildAccounts headers rows ↔
        (s0 ≠ "" ∨ s1 ≠ ""))) := by
  have hsplit : buildAccounts headers (row :: rows) =
      if rowKept row then buildAccount headers row :: buildAccounts headers rows
      else buildAccounts headers rows := by
    unfold buildAccounts
    rw [List.filter_cons]
    by_cases h : rowKept row <;> simp [h]
  have hfalse : rowKept row = false ↔
      ((cellAt row 0).truthy = false ∧ (cellAt row 1).truthy = false) := by
    unfold rowKept
    cases (cellAt row 0).truthy <;> cases (cellAt row 1).truthy <;> simp
  constructor
  · constructor
    · intro h
      by_cases hk : rowKept row = true
      · rw [hsplit, if_pos hk] at h
        exact absurd h (cons_ne_self _ _)
      · exact hfalse.mp (Bool.not_eq_true _ ▸ Bool.of_not_eq_true hk)
    · intro h
      rw [hsplit, if_neg]
      rw [Bool.not_eq_true, hfalse]
      exact h
  · intro s0 s1 hs0 hs1
    have hk : rowKept row = (!(s0 == "") || !(s1 == "")) := by
      unfold rowKept
      rw [hs0, hs1]
      rfl
    constructor
    · intro h
      by_cases h0 : s0 = "" <;> by_cases h1 : s1 = ""
      · exfalso
        rw [hsplit] at h
        rw [hk, h0, h1] at h
        simp at h
      · exact Or.inr h1
      · exact Or.inl h0
      · exact Or.inl h0
    · intro h
      have hkt : rowKept row = true := by
        rw [hk]
        rcases h with h | h <;> simp [h]
      rw [hsplit, if_pos hkt]

/-- C3 witness: the theorem applied to a row whose primary-name cell is
non-empty and whose remaining cells are corrupt text — the row is still
included. -/
theorem snapshot_row_inclusion_witness :
    buildAccounts [JSValue.str "公众号", JSValue.str "帐号名", JSValue.str "阅读总数"]
      [[JSValue.str "新智元", JSValue.str "", JSValue.str "@@bad@@"]] =
      [buildAccount [JSValue.str "公众号", JSValue.str "帐号名", JSValue.str "阅读总数"]
        [JSValue.str "新智元", JSValue.str "", JSValue.str "@@bad@@"]] := by
  have h := ((snapshot_row_inclusion
    [JSValue.str "公众号", JSValue.str "帐号名", JSValue.str "阅读总数"] []
    [JSValue.str "新智元", JSValue.str "", JSValue.str "@@bad@@"]).2 "新智元" "" rfl rfl).mpr
    (Or.inl (by decide))
  simpa using h

/-- C3 counterexample: a sheet whose identity columns are not the first
two.  The row's primary-name cell (position 2, under header `公众号`)
is non-empty, so the claim requires inclusion, but the filter looks at
positions 0 and 1 — both empty — and drops the row. -/
theorem snapshot_row_inclusion_cex :
    cellAt [JSValue.str "文章总数", JSValue.str "阅读总数", JSValue.str "公众号",
      JSValue.str "帐号名"] 2 = JSValue.str "公众号" ∧
    cellAt [JSValue.str "", JSValue.str "", JSValue.str "新智元", JSValue.str ""] 2 =
      JSValue.str "新智元" ∧
    buildAccounts [JSValue.str "文章总数", JSValue.str "阅读总数", JSValue.str "公众号",
      JSValue.str "帐号名"]
      [[JSValue.str "", JSValue.str "", JSValue.str "新智元", JSValue.str ""]] = [] := by
  refine ⟨rfl, rfl, ?_⟩
  decide

theorem buildFields_append (h1 h2 : List JSValue) (row : List JSValue) (i : ℕ) :
    buildFields (h1 ++ h2) row i =
      buildFields h1 row i ++ buildFields h2 row (i + h1.length) := by
  induction h1 generalizing i with
  | nil => simp [buildFields]
  | cons x t ih =>
    simp only [List.cons_append, buildFields, List.length_cons, List.cons.injEq, true_and,
      List.append_eq]
    rw [ih (i + 1)]
    have harith : i + 1 + t.length = i + (t.length + 1) := by omega
    rw [harith]

theorem lookup_foldl_no_key (l : List (String × JSValue)) (k : String)
    (a : Option JSValue) (h : ∀ p ∈ l, p.1 ≠ k) :
    l.foldl (fun acc p => if p.1 == k then some p.2 else acc) a = a := by
  induction l generalizing a with
  | nil => rfl
  | cons p t ih =>
    have hp : (p.1 == k) = false := by
      have := h p (List.mem_cons_self p t)
      simp [this]
    rw [List.foldl_cons, hp]
    simp only [Bool.false_eq_true, if_false]
    exact ih _ (fun q hq => h q (List.mem_cons_of_mem p hq))

theorem buildFields_keys (hs : List JSValue) (row : List JSValue) (i : ℕ) (k : String)
    (h : ∀ x ∈ hs, jsToString x ≠ k) : ∀ p ∈ buildFields hs row i, p.1 ≠ k := by
  induction hs generalizing i with
  | nil => intro p hp; simp [buildFields] at hp
  | cons x t ih =>
    intro p hp
    rw [buildFields] at hp
    rcases List.mem_cons.mp hp with hp | hp
    · rw [hp]
      exact h x (List.mem_cons_self x t)
    · exact ih (i + 1) (fun y hy => h y (List.mem_cons_of_mem x hy)) p hp

/-- C8 (amended): when the same field name occurs at several header
positions, the value stored in the built record under that name is the
one from the LAST occurrence's cell — `account[header] = ...` inside
`headers.forEach` overwrites earlier assignments — not the first
occurrence's cell as the claim states. -/
theorem duplicate_header_last_wins (pre post : List JSValue) (h : JSValue)
    (row : List JSValue) (k : String) (hk : jsToString h = k)
    (hpost : ∀ x ∈ post, jsToString x ≠ k) :
    getField (buildAccount (pre ++ h :: post) row) k = cellValue h row pre.length := by
  unfold buildAccount getField
  rw [buildFields_append pre (h :: post) row 0]
  rw [List.foldl_append]
  rw [buildFields]
  rw [List.foldl_cons]
  have hbeq : (jsToString h == k) = true := by simp [hk]
  rw [hbeq]
  simp only [if_true]
  rw [lookup_foldl_no_key _ _ _ (buildFields_keys post row _ k hpost)]
  simp

/-- C8 witness: the theorem applied to a header containing `x` twice —
the record stores the value parsed from the second `x` column. -/
theorem duplicate_header_last_wins_witness :
    getField (buildAccount [JSValue.str "公众号", JSValue.str "x", JSValue.str "x"]
      [JSValue.str "B", JSValue.str "7", JSValue.str "9"]) "x" =
      JSValue.num (JSNum.fin 9) := by
  have h := duplicate_header_last_wins [JSValue.str "公众号", JSValue.str "x"] []
    (JSValue.str "x") [JSValue.str "B", JSValue.str "7", JSValue.str "9"] "x" rfl
    (fun x hx => absurd hx (List.not_mem_nil x))
  simp only [List.cons_append, List.nil_append] at h
  rw [h]
  simp [cellValue, cellAt, parseNumber, parseFloat, parseFloatBody, parseMantissa,
    parseExpPart, parseExpDigits, digitsToNat, digitVal, litStarts, isJsWs, jsTrim,
    removeAll, removeFirst, removeFirstChar, jsIncludes]

/-- C8 counterexample: with header `[公众号, x, x]` and cells `[A, 1, 2]`
the stored value under `x` is 2 (the last occurrence's cell), not the 1
the first-occurrence-wins claim predicts. -/
theorem duplicate_header_first_wins_cex :
    getField (buildAccount [JSValue.str "公众号", JSValue.str "x", JSValue.str "x"]
      [JSValue.str "A", JSValue.str "1", JSValue.str "2"]) "x" =
      JSValue.num (JSNum.fin 2) ∧
    getField (buildAccount [JSValue.str "公众号", JSValue.str "x", JSValue.str "x"]
      [JSValue.str "A", JSValue.str "1", JSValue.str "2"]) "x" ≠
      JSValue.num (JSNum.fin 1) := by
  constructor <;>
    simp [buildAccount, buildFields, getField, cellValue, cellAt, jsToString,
      parseNumber, parseFloat, parseFloatBody, parseMantissa, parseExpPart,
      parseExpDigits, digitsToNat, digitVal, litStarts, isJsWs, jsTrim,
      removeAll, removeFirst, removeFirstChar, jsIncludes]

theorem jsum_append_one (l : List JSNum) (x : JSNum) :
    jsum (l ++ [x]) = (jsum l).jadd x := by
  simp [jsum, List.foldl_append]

theorem statsSums_pushMonth (md : MonthlyData) (s : AccountYearlyStats)
    (h : statsSums s) : statsSums (pushMonth md s) := by
  obtain ⟨h1, h2, h3⟩ := h
  refine ⟨?_, ?_, ?_⟩ <;>
    simp [pushMonth, List.map_append, jsum_append_one, h1, h2, h3]

theorem InvGen_mono (Q Q' : String → MonthlyData → Prop)
    (h : ∀ k md, Q k md → Q' k md) (acc : StatsMap) (hinv : InvGen Q acc) :
    InvGen Q' acc := fun k s hs =>
  ⟨(hinv k s hs).1, fun md hmd => h k md ((hinv k s hs).2 md hmd)⟩

theorem InvGen_updateStats (Q : String → MonthlyData → Prop) (acc : StatsMap)
    (name : String) (md : MonthlyData) (hinv : InvGen Q acc) (hQ : Q name md) :
    InvGen Q (updateStats acc name md) := by
  intro k s hks
  unfold updateStats at hks
  by_cases hk : (k == name) = true
  · rw [if_pos hk] at hks
    obtain ⟨s0, hs0, rfl⟩ := Option.map_eq_some'.mp hks
    obtain ⟨hsum, hmem⟩ := hinv k s0 hs0
    refine ⟨statsSums_pushMonth md s0 hsum, ?_⟩
    intro md' hmd'
    simp only [pushMonth, List.mem_append, List.mem_singleton] at hmd'
    rcases hmd' with hmd' | rfl
    · exact hmem md' hmd'
    · rw [beq_iff_eq] at hk
      rw [hk]
      exact hQ
  · rw [if_neg hk] at hks
    exact hinv k s hks

theorem InvGen_processRow (month : String) (aIdx rIdx hIdx fIdx : ℤ)
    (Q : String → MonthlyData → Prop) (acc : StatsMap) (row : List JSValue)
    (hQ : ∀ name, rowMatches aIdx name row = true →
      Q name ⟨month, metricAt row rIdx, metricAt row hIdx, metricAt row fIdx⟩)
    (hinv : InvGen Q acc) :
    InvGen Q (processRow month aIdx rIdx hIdx fIdx acc row) := by
  unfold processRow
  by_cases ht : (cellAtZ row aIdx).truthy = true
  · rw [if_pos ht]
    by_cases hc :
        TARGET_ACCOUNTS.contains (jsTrim (jsToString (cellAtZ row aIdx))) = true
    · rw [if_pos hc]
      refine InvGen_updateStats Q acc _ _ hinv (hQ _ ?_)
      simp [rowMatches, ht]
    · rw [if_neg hc]
      exact hinv
  · rw [if_neg ht]
    exact hinv

theorem InvGen_foldRows (month : String) (aIdx rIdx hIdx fIdx : ℤ)
    (Q : String → MonthlyData → Prop) (rows : List (List JSValue)) :
    ∀ acc : StatsMap,
      (∀ name r, r ∈ rows → rowMatches aIdx name r = true →
        Q name ⟨month, metricAt r rIdx, metricAt r hIdx, metricAt r fIdx⟩) →
      InvGen Q acc →
      InvGen Q (rows.foldl (processRow month aIdx rIdx hIdx fIdx) acc) := by
  induction rows with
  | nil => intro acc _ hinv; exact hinv
  | cons r t ih =>
    intro acc hQ hinv
    rw [List.foldl_cons]
    refine ih _ (fun name r' hr' => hQ name r' (List.mem_cons_of_mem r hr')) ?_
    exact InvGen_processRow month aIdx rIdx hIdx fIdx Q acc r
      (fun name hm => hQ name r (List.mem_cons_self r t) hm) hinv

theorem InvGen_processMonth (Q : String → MonthlyData → Prop) (acc : StatsMap)
    (m : String) (src : MonthSource) (hinv : InvGen Q acc) :
    InvGen (fun k md => Q k md ∨ (md.month = m ∧ monthHasMatch k src = true))
      (processMonth acc (m, src)) := by
  have hmono := InvGen_mono Q
    (fun k md => Q k md ∨ (md.month = m ∧ monthHasMatch k src = true))
    (fun k md h => Or.inl h) acc hinv
  cases src with
  | noFile => exact hmono
  | readFailure => exact hmono
  | workbook sheets =>
    cases sheets with
    | nil => exact hmono
    | cons sheet rest =>
      unfold processMonth
      dsimp only
      by_cases hlen : sheet.length < 2
      · rw [if_pos hlen]
        exact hmono
      · rw [if_neg hlen]
        unfold processSheet
        dsimp only
        refine InvGen_foldRows m _ _ _ _ _ _ _ ?_ ?_
        · intro name r hr hm
          refine Or.inr ⟨rfl, ?_⟩
          unfold monthHasMatch
          dsimp only
          rw [if_neg hlen]
          rw [List.any_eq_true]
          exact ⟨r, hr, hm⟩
        · exact InvGen_mono Q _ (fun k md h => Or.inl h) acc hinv

theorem InvGen_foldInputs (todo : List (String × MonthSource)) :
    ∀ (Q : String → MonthlyData → Prop) (acc : StatsMap), InvGen Q acc →
      InvGen (fun k md => Q k md ∨
          ∃ p ∈ todo, md.month = p.1 ∧ monthHasMatch k p.2 = true)
        (todo.foldl processMonth acc) := by
  induction todo with
  | nil =>
    intro Q acc hinv
    exact InvGen_mono Q _ (fun k md h => Or.inl h) acc hinv
  | cons p t ih =>
    intro Q acc hinv
    rw [List.foldl_cons]
    have h1 := InvGen_processMonth Q acc p.1 p.2 hinv
    have h2 := ih _ _ h1
    refine InvGen_mono _ _ ?_ _ h2
    rintro k md ((h | ⟨hm, hs⟩) | ⟨q, hq, hqq⟩)
    · exact Or.inl h
    · exact Or.inr ⟨p, List.mem_cons_self p t, hm, hs⟩
    · exact Or.inr ⟨q, List.mem_cons_of_mem p hq, hqq⟩

theorem InvGen_initial : InvGen (fun _ _ => False) initialStatsMap := by
  intro k s hs
  unfold initialStatsMap at hs
  by_cases hk : TARGET_ACCOUNTS.contains k = true
  · rw [if_pos hk] at hs
    obtain rfl := Option.some.injEq .. ▸ hs.symm
    refine ⟨⟨rfl, rfl, rfl⟩, ?_⟩
    intro md hmd
    simp at hmd
  · rw [if_neg hk] at hs
    exact absurd hs (Option.noConfusion)

/-- C5: for every input month sequence and every entity tracked by the
aggregation map, each of the three running totals equals the left-fold
sum of that metric over the entity's period series, and every series
entry stems from an input period containing a matching record — a month
in which no input period has a matching record for the entity appears
nowhere in the series, contributing exactly the totals' initial zero. -/
theorem yearly_series_sum_eq_total (inputs : List (String × MonthSource))
    (name : String) (s : AccountYearlyStats)
    (h : aggregate inputs name = some s) :
    statsSums s ∧
    (∀ md ∈ s.monthlyData,
      ∃ p ∈ inputs, md.month = p.1 ∧ monthHasMatch name p.2 = true) ∧
    (∀ m : String, (∀ p ∈ inputs, p.1 = m → monthHasMatch name p.2 = false) →
      ∀ md ∈ s.monthlyData, md.month ≠ m) := by
  unfold aggregate at h
  have hfold := InvGen_foldInputs inputs (fun _ _ => False) initialStatsMap InvGen_initial
  obtain ⟨hsums, hmem⟩ := hfold name s h
  refine ⟨hsums, ?_, ?_⟩
  · intro md hmd
    rcases hmem md hmd with hF | hx
    · exact hF.elim
    · exact hx
  · intro m hm md hmd heq
    rcases hmem md hmd with hF | ⟨p, hp, hmonth, hmatch⟩
    · exact hF
    · have hpm : p.1 = m := by rw [← hmonth, heq]
      rw [hm p hp hpm] at hmatch
      exact Bool.noConfusion hmatch

/-- C5 witness: the theorem applied to a concrete three-month input in
which month 202402 fails to read and the entity's name appears with
surrounding whitespace in month 202403; the series sums (10 + 5 reads,
4 + 2 headline reads, 10000 + 3 forwards) equal the running totals. -/
theorem yearly_series_sum_eq_total_witness :
    aggregate [("202401", MonthSource.workbook
        [[[JSValue.str "公众号", JSValue.str "阅读总数", JSValue.str "头条文章阅读量",
            JSValue.str "转发总量"],
          [JSValue.str "新智元", JSValue.str "10", JSValue.str "4", JSValue.str "1w"]]]),
      ("202402", MonthSource.readFailure),
      ("202403", MonthSource.workbook
        [[[JSValue.str "公众号", JSValue.str "阅读总数", JSValue.str "头条文章阅读量",
            JSValue.str "转发总量"],
          [JSValue.str " 新智元 ", JSValue.str "5", JSValue.str "2", JSValue.str "3"]]])]
      "新智元"
      = some ⟨"新智元",
          [⟨"202401", JSNum.fin 10, JSNum.fin 4, JSNum.fin 10000⟩,
           ⟨"202403", JSNum.fin 5, JSNum.fin 2, JSNum.fin 3⟩],
          JSNum.fin 15, JSNum.fin 6, JSNum.fin 10003⟩ ∧
    statsSums ⟨"新智元",
      [⟨"202401", JSNum.fin 10, JSNum.fin 4, JSNum.fin 10000⟩,
       ⟨"202403", JSNum.fin 5, JSNum.fin 2, JSNum.fin 3⟩],
      JSNum.fin 15, JSNum.fin 6, JSNum.fin 10003⟩ := by
  have hagg : aggregate [("202401", MonthSource.workbook
        [[[JSValue.str "公众号", JSValue.str "阅读总数", JSValue.str "头条文章阅读量",
            JSValue.str "转发总量"],
          [JSValue.str "新智元", JSValue.str "10", JSValue.str "4", JSValue.str "1w"]]]),
      ("202402", MonthSource.readFailure),
      ("202403", MonthSource.workbook
        [[[JSValue.str "公众号", JSValue.str "阅读总数", JSValue.str "头条文章阅读量",
            JSValue.str "转发总量"],
          [JSValue.str " 新智元 ", JSValue.str "5", JSValue.str "2", JSValue.str "3"]]])]
      "新智元"
      = some ⟨"新智元",
          [⟨"202401", JSNum.fin 10, JSNum.fin 4, JSNum.fin 10000⟩,
           ⟨"202403", JSNum.fin 5, JSNum.fin 2, JSNum.fin 3⟩],
          JSNum.fin 15, JSNum.fin 6, JSNum.fin 10003⟩ := by
    simp [aggregate, processMonth, processSheet, processRow, updateStats, pushMonth,
      initialStatsMap, jsFindIdx, jsFindIdxFrom, cellAtZ, cellAt, metricAt, rowMatches,
      jsTrim, jsToString, TARGET_ACCOUNTS, parseNumberYearly, parseFloat, parseFloatBody,
      parseMantissa, parseExpPart, parseExpDigits, digitsToNat, digitVal, litStarts,
      isJsWs, removeAll, removeFirst, removeFirstChar, jsIncludes, jsToLower,
      JSNum.jmul10000, JSNum.jadd, JSValue.truthy, JSNum.truthy, jsum]
    norm_num
  exact ⟨hagg, (yearly_series_sum_eq_total _ _ _ hagg).1⟩

/-- C9: a month whose input is skipped wholesale — no spreadsheet file, a
read/parse failure, a workbook without sheets, or a first sheet with
fewer than two rows — contributes nothing to any entity: the whole
aggregation over the input list with that month inserted anywhere
agrees, at every key, with the aggregation over the list without it,
and in particular never fails as a whole. -/
theorem bad_period_isolated (m : String) (src : MonthSource)
    (hbad : monthSkipped src = true) (pre post : List (String × MonthSource))
    (k : String) :
    aggregate (pre ++ (m, src) :: post) k = aggregate (pre ++ post) k := by
  unfold aggregate
  rw [List.foldl_append, List.foldl_append, List.foldl_cons]
  have hskip : processMonth (pre.foldl processMonth initialStatsMap) (m, src) =
      pre.foldl processMonth initialStatsMap := by
    cases src with
    | noFile => rfl
    | readFailure => rfl
    | workbook sheets =>
      cases sheets with
      | nil => rfl
      | cons sheet rest =>
        unfold processMonth
        dsimp only
        rw [if_pos (of_decide_eq_true hbad)]
  rw [hskip]

/-- C9 witness: the theorem applied to a concrete input list with a
failing middle month, evaluated at one of the tracked accounts. -/
theorem bad_period_isolated_witness :
    monthSkipped MonthSource.readFailure = true ∧
    aggregate [("202401", MonthSource.workbook
        [[[JSValue.str "公众号", JSValue.str "阅读总数", JSValue.str "头条文章阅读量",
            JSValue.str "转发总量"],
          [JSValue.str "新智元", JSValue.str "10", JSValue.str "4", JSValue.str "1w"]]]),
      ("202402", MonthSource.readFailure),
      ("202403", MonthSource.workbook
        [[[JSValue.str "公众号", JSValue.str "阅读总数", JSValue.str "头条文章阅读量",
            JSValue.str "转发总量"],
          [JSValue.str " 新智元 ", JSValue.str "5", JSValue.str "2", JSValue.str "3"]]])]
      "新智元"
      = aggregate [("202401", MonthSource.workbook
        [[[JSValue.str "公众号", JSValue.str "阅读总数", JSValue.str "头条文章阅读量",
            JSValue.str "转发总量"],
          [JSValue.str "新智元", JSValue.str "10", JSValue.str "4", JSValue.str "1w"]]]),
      ("202403", MonthSource.workbook
        [[[JSValue.str "公众号", JSValue.str "阅读总数", JSValue.str "头条文章阅读量",
            JSValue.str "转发总量"],
          [JSValue.str " 新智元 ", JSValue.str "5", JSValue.str "2", JSValue.str "3"]]])]
      "新智元" :=
  ⟨rfl, bad_period_isolated "202402" MonthSource.readFailure rfl
    [("202401", MonthSource.workbook
        [[[JSValue.str "公众号", JSValue.str "阅读总数", JSValue.str "头条文章阅读量",
            JSValue.str "转发总量"],
          [JSValue.str "新智元", JSValue.str "10", JSValue.str "4", JSValue.str "1w"]]])]
    [("202403", MonthSource.workbook
        [[[JSValue.str "公众号", JSValue.str "阅读总数", JSValue.str "头条文章阅读量",
            JSValue.str "转发总量"],
          [JSValue.str " 新智元 ", JSValue.str "5", JSValue.str "2", JSValue.str "3"]]])]
    "新智元"⟩
